import Mathlib

/-!
Shallow embedding of the batch ticket-categorization pipeline of the
RiskalyzeAI repository (backend/openai_agent.py and
scripts/run_categorization.py), together with theorems settling the
frozen claims about its specification.

Strings are modelled through their character lists (Python str methods
operate on code points, as List Char does here).  Machine-level details
that the claims do not touch (logging, timing of backoff sleeps) are not
modelled; the OpenAI endpoint and the database are modelled as explicit
oracles and an explicit list of ticket rows, respectively.
-/

namespace Riskalyze

/-! ### Python string primitives used by the pipeline -/

/-- The six common ASCII whitespace characters of Python str.strip and
of the regex class backslash-s: space, tab, newline, carriage return,
vertical tab, form feed.  Rarer Unicode whitespace (file separators,
no-break space) is outside the modelled alphabet. -/
def isPySpace (c : Char) : Bool :=
  c = ' ' || c = '\t' || c = '\n' || c = '\r' || c = '\x0b' || c = '\x0c'

/-- Python str.strip on a character list: drop leading and trailing
whitespace. -/
def pyStrip (cs : List Char) : List Char :=
  ((cs.dropWhile isPySpace).reverse.dropWhile isPySpace).reverse

/-- Line-break characters of Python str.splitlines other than the
carriage return (which is handled separately so that a CR-LF pair counts
as a single break). -/
def isLineBreak (c : Char) : Bool :=
  c = '\n' || c = '\x0b' || c = '\x0c' || c = '\x1c' || c = '\x1d' ||
  c = '\x1e' || c = '\x85' || c = '\u2028' || c = '\u2029'

/-- Worker for splitlines: acc holds the current line reversed. -/
def splitlinesAux : List Char → List Char → List (List Char)
  | [], acc => if acc.isEmpty then [] else [acc.reverse]
  | '\r' :: '\n' :: rest, acc => acc.reverse :: splitlinesAux rest []
  | c :: rest, acc =>
    if c = '\r' || isLineBreak c then acc.reverse :: splitlinesAux rest []
    else splitlinesAux rest (c :: acc)

/-- Python str.splitlines: split on line boundaries, producing no
trailing empty line for input that ends with a break. -/
def splitlines (s : String) : List (List Char) :=
  splitlinesAux s.data []

/-- Application of the anchored regex sub in categorize_ticket_batch,
pattern: caret, backslash-s star, backslash-d plus, optional dot,
backslash-s star, optional colon or dash, backslash-s star, replaced by
the empty string.  The character classes of consecutive pieces are
disjoint, so greedy matching consumes maximal runs piecewise; with no
leading digit run the pattern does not match and the input is returned
unchanged. -/
def stripEnumPrefix (cs : List Char) : List Char :=
  let s1 := cs.dropWhile isPySpace
  if (s1.takeWhile Char.isDigit).isEmpty then cs
  else
    let s2 := s1.dropWhile Char.isDigit
    let s3 := match s2 with
      | '.' :: r => r
      | _ => s2
    let s4 := s3.dropWhile isPySpace
    let s5 := match s4 with
      | ':' :: r => r
      | '-' :: r => r
      | _ => s4
    s5.dropWhile isPySpace

/-- Python substring membership: pat occurs contiguously in hay. -/
def occursIn (pat : List Char) : List Char → Bool
  | [] => pat.isEmpty
  | c :: rest => pat.isPrefixOf (c :: rest) || occursIn pat rest

/-! ### The closed label set and the category normalizer -/

/-- Default category list of categorize_ticket_batch. -/
def defaultCategories : List String :=
  ["Network Security", "Phishing Attack", "Malware Infection",
   "Access Control", "Policy Violation", "Data Leak",
   "Hardware Issue", "Software Issue", "Other"]

/-- Target category list of run_categorization (textually the same
list). -/
def target_categories : List String :=
  ["Network Security", "Phishing Attack", "Malware Infection",
   "Access Control", "Policy Violation", "Data Leak",
   "Hardware Issue", "Software Issue", "Other"]

/-- Stable insertion for the descending-length sort: x goes before the
first element whose length is at most the length of x. -/
def insertLenDesc (x : String) : List String → List String
  | [] => [x]
  | y :: ys => if x.length < y.length then y :: insertLenDesc x ys else x :: y :: ys

/-- Python sorted with key len and reverse true: stable sort by
descending string length. -/
def sortLenDesc : List String → List String
  | [] => []
  | x :: xs => insertLenDesc x (sortLenDesc xs)

/-- Matching step of the per-line normalization: an exact match against
the label list wins, then the first (longest-first) label occurring as a
substring of the cleaned text, and otherwise the sentinel label. -/
def matchCategory (cats : List String) (cleaned : List Char) : String :=
  if cats.any (fun c => c.data == cleaned) then String.mk cleaned
  else
    match (sortLenDesc cats).find? (fun c => occursIn c.data cleaned) with
    | some c => c
    | none => "Other"

/-- Per-line normalization core of categorize_ticket_batch: strip the
enumeration prefix and surrounding whitespace, then match. -/
def normalizeChars (cats : List String) (line : List Char) : String :=
  matchCategory cats (pyStrip (stripEnumPrefix line))

/-- Per-line normalization on a string. -/
def normalizeLine (cats : List String) (line : String) : String :=
  normalizeChars cats line.data

/-! ### Response parsing and the batch categorization function -/

/-- Parsing step of categorize_ticket_batch: split the raw response on
line boundaries, strip every line, and discard empty lines. -/
def nonEmptyLines (raw : String) : List (List Char) :=
  ((splitlines raw).map pyStrip).filter (fun l => !l.isEmpty)

/-- The error marker that the pipeline sniffs for inside strings. -/
def hasErrorMarker (s : String) : Bool :=
  occursIn ("Error:".data) s.data

/-- Category list actually used: the default list when the argument is
None or empty. -/
def pickCategories : Option (List String) → List String
  | none => defaultCategories
  | some cs => if cs.isEmpty then defaultCategories else cs

/-- Result of categorize_ticket_batch once the API call has returned
raw: replicate the raw text if it carries the error marker, then parse,
enforce the line count, and normalize line by line. -/
def processResponse (n : Nat) (cats : List String) (raw : String) : List String :=
  if hasErrorMarker raw then List.replicate n raw
  else
    let lines := nonEmptyLines raw
    if lines.length ≠ n then List.replicate n ("Error: Count Mismatch")
    else lines.map (normalizeChars cats)

/-- categorize_ticket_batch on the path where the API call succeeds and
returns raw; clientOk models whether the module-level OpenAI client was
initialized. -/
def categorize_ticket_batch (clientOk : Bool) (texts : List String)
    (categories : Option (List String)) (raw : String) : List String :=
  if !clientOk then
    if texts.isEmpty then [] else List.replicate texts.length ("Error: OpenAI Not Configured")
  else if texts.isEmpty then []
  else processResponse texts.length (pickCategories categories) raw

/-! ### Ticket rows, the per-batch driver, and the database -/

/-- Subset of a ticket row relevant to categorization.  A NULL category
is modelled by the empty string (the fetch query treats NULL and the
empty string the same way). -/
structure Ticket where
  id : Nat
  title : String
  description : String
  category : String
  deriving DecidableEq

/-- Maximum description length sent for categorization. -/
def MAX_DESC_LEN : Nat := 500

/-- Text built for one ticket in process_batch: title plus truncated
description. -/
def ticketText (t : Ticket) : String :=
  "Title: " ++ t.title ++ "\nDescription: " ++ String.mk (t.description.data.take MAX_DESC_LEN)

/-- process_batch on the path where the API call succeeds and returns
raw; none models the Python None failure result, and the association
list models the dict built from zip (ticket ids are database primary
keys, hence distinct). -/
def process_batch (clientOk : Bool) (batch : List Ticket) (cats : List String)
    (raw : String) : Option (List (Nat × String)) :=
  if batch.isEmpty then some []
  else
    let predicted := categorize_ticket_batch clientOk (batch.map ticketText) (some cats) raw
    if predicted.isEmpty || predicted.length != batch.length then none
    else if predicted.any hasErrorMarker then none
    else some ((batch.map Ticket.id).zip predicted)

/-- Fetch of tickets with category Pending, NULL or empty. -/
def get_pending_tickets (db : List Ticket) : List Ticket :=
  db.filter (fun t => t.category == "Pending" || t.category == "")

/-- Ticket with its category replaced. -/
def setCategory (t : Ticket) (c : String) : Ticket :=
  ⟨t.id, t.title, t.description, c⟩

/-- UPDATE tickets SET category WHERE id: returns the new table and
whether the statement matched at least one row (rowcount positive). -/
def update_ticket_category (db : List Ticket) (tid : Nat) (c : String) :
    List Ticket × Bool :=
  (db.map (fun t => if t.id = tid then setCategory t c else t),
   db.any (fun t => t.id == tid))

/-- Whether some row of the table carries the given id (the condition
under which the UPDATE statement matches at least one row). -/
def hasId (db : List Ticket) (x : Nat) : Bool :=
  (db.map Ticket.id).any (fun i => i == x)

/-- Batch size of the run (the source constant). -/
def BATCH_SIZE : Nat := 10

/-- Ceiling division computing the number of batches. -/
def numBatches (n : Nat) : Nat := (n + BATCH_SIZE - 1) / BATCH_SIZE

/-- Slice of the pending set taken by batch i (iloc range slicing). -/
def batchOf (pending : List Ticket) (i : Nat) : List Ticket :=
  (pending.drop (i * BATCH_SIZE)).take BATCH_SIZE

/-- Accumulated state of the per-batch API loop in main: the merged
result mapping, the count of tickets with API results, and the count of
failed batches. -/
structure ApiPhase where
  allResults : List (Nat × String)
  processed : Nat
  failed : Nat
  deriving DecidableEq

/-- The for-loop over batch indices in main. -/
def collectLoop (clientOk : Bool) (cats : List String) (responses : Nat → String)
    (pending : List Ticket) : List Nat → ApiPhase → ApiPhase
  | [], st => st
  | i :: rest, st =>
    match process_batch clientOk (batchOf pending i) cats (responses i) with
    | none => collectLoop clientOk cats responses pending rest
        ⟨st.allResults, st.processed, st.failed + 1⟩
    | some rs => collectLoop clientOk cats responses pending rest
        ⟨st.allResults ++ rs, st.processed + rs.length, st.failed⟩

/-- The whole API phase of main. -/
def collectBatches (clientOk : Bool) (cats : List String) (responses : Nat → String)
    (pending : List Ticket) : ApiPhase :=
  collectLoop clientOk cats responses pending
    (List.range (numBatches pending.length)) ⟨[], 0, 0⟩

/-- Accumulated state of the database update loop in main. -/
structure UpdatePhase where
  db : List Ticket
  success : Nat
  err : Nat
  mappedOther : Nat
  deriving DecidableEq

/-- The update loop of main: remap out-of-vocabulary categories to the
sentinel, then issue one update per ticket, counting outcomes. -/
def finalCategory (cats : List String) (cat : String) : String :=
  if cats.contains cat then cat else "Other"

def applyUpdates (cats : List String) : List (Nat × String) → UpdatePhase → UpdatePhase
  | [], st => st
  | (tid, cat) :: rest, st =>
    applyUpdates cats rest
      ⟨(update_ticket_category st.db tid (finalCategory cats cat)).1,
       if (update_ticket_category st.db tid (finalCategory cats cat)).2
         then st.success + 1 else st.success,
       if (update_ticket_category st.db tid (finalCategory cats cat)).2
         then st.err else st.err + 1,
       if cats.contains cat then st.mappedOther else st.mappedOther + 1⟩

/-- Final summary counters logged by main. -/
structure RunSummary where
  totalFound : Nat
  processedFromApi : Nat
  failedApiBatches : Nat
  dbSuccess : Nat
  dbError : Nat
  mappedToOther : Nat
  deriving DecidableEq

/-- Outcome of a run of main: the early returns and the completed
summary are distinguished. -/
inductive RunOutcome where
  | noEngine : RunOutcome
  | noPending : RunOutcome
  | noResults : Nat → Nat → Nat → RunOutcome
  | completed : RunSummary → RunOutcome
  deriving DecidableEq

/-- main of run_categorization on the path where every issued API call
succeeds, with the response of batch i given by the oracle; returns the
outcome and the final ticket table. -/
def runMain (engineOk clientOk : Bool) (db : List Ticket)
    (responses : Nat → String) : RunOutcome × List Ticket :=
  if !engineOk then (RunOutcome.noEngine, db)
  else
    let pending := get_pending_tickets db
    if pending.isEmpty then (RunOutcome.noPending, db)
    else
      let api := collectBatches clientOk target_categories responses pending
      if api.allResults.isEmpty then
        (RunOutcome.noResults pending.length api.processed api.failed, db)
      else
        let upd := applyUpdates target_categories api.allResults ⟨db, 0, 0, 0⟩
        (RunOutcome.completed
          ⟨pending.length, api.processed, api.failed, upd.success, upd.err, upd.mappedOther⟩,
         upd.db)

/-! ### Retry model of the API callers

The tenacity decorators are modelled with an oracle giving the outcome
of the k-th underlying OpenAI request: some raw for a response, none for
a raised exception.  Except.error stands for an exception escaping the
decorated function; the attempt counter is threaded through so that the
number of requests issued is observable.  Backoff sleep times are real
time and are not modelled. -/

/-- stop_after_attempt semantics: up to fuel attempts, stopping at the
first success; exhaustion re-raises. -/
def apiRetryLoop : Nat → (Nat → Option String) → Nat → Except Unit String × Nat
  | 0, _, k => (Except.error (), k)
  | fuel + 1, oracle, k =>
    match oracle k with
    | some raw => (Except.ok raw, k + 1)
    | none => apiRetryLoop fuel oracle (k + 1)

/-- call_openai_api: an unconfigured client returns an error string
without issuing any request; otherwise up to 3 attempts are made. -/
def call_openai_api (clientOk : Bool) (oracle : Nat → Option String) (k : Nat) :
    Except Unit String × Nat :=
  if clientOk then apiRetryLoop 3 oracle k
  else (Except.ok ("Error: OpenAI client not configured."), k)

/-- One attempt of the decorated categorize_ticket_batch body: the
client and emptiness guards return without any request; otherwise the
inner caller runs and an escaping exception is re-raised. -/
def categorizeBody (clientOk : Bool) (texts : List String)
    (categories : Option (List String)) (oracle : Nat → Option String) (k : Nat) :
    Except Unit (List String) × Nat :=
  if !clientOk then
    (Except.ok (if texts.isEmpty then [] else
      List.replicate texts.length ("Error: OpenAI Not Configured")), k)
  else if texts.isEmpty then (Except.ok [], k)
  else
    match call_openai_api clientOk oracle k with
    | (Except.error e, k2) => (Except.error e, k2)
    | (Except.ok raw, k2) =>
      (Except.ok (processResponse texts.length (pickCategories categories) raw), k2)

/-- Retry loop of the decorator on categorize_ticket_batch itself. -/
def categorizeRetryLoop : Nat → Bool → List String → Option (List String) →
    (Nat → Option String) → Nat → Except Unit (List String) × Nat
  | 0, _, _, _, _, k => (Except.error (), k)
  | fuel + 1, clientOk, texts, categories, oracle, k =>
    match categorizeBody clientOk texts categories oracle k with
    | (Except.ok r, k2) => (Except.ok r, k2)
    | (Except.error _, k2) => categorizeRetryLoop fuel clientOk texts categories oracle k2

/-- categorize_ticket_batch with both nested retry decorators. -/
def categorize_with_retry (clientOk : Bool) (texts : List String)
    (categories : Option (List String)) (oracle : Nat → Option String) (k : Nat) :
    Except Unit (List String) × Nat :=
  categorizeRetryLoop 3 clientOk texts categories oracle k

/-! ### Concrete scenarios used by witnesses and counterexamples -/

/-- A fresh pending ticket with the given position. -/
def pendingTicket (k : Nat) : Ticket := ⟨k + 1, "T", "D", "Pending"⟩

/-- A backlog of 23 pending tickets. -/
def scenarioDb : List Ticket := (List.range 23).map pendingTicket

/-- A backlog of 11 pending tickets. -/
def elevenDb : List Ticket := (List.range 11).map pendingTicket

/-- A well-formed model response of n lines, each the sentinel label. -/
def linesOther (n : Nat) : String :=
  String.intercalate "\n" (List.replicate n ("Other"))

/-- Responses for the 23-ticket scenario: batch 2 gets 9 lines instead
of 10. -/
def scenarioResponses (i : Nat) : String :=
  if i = 0 then linesOther 10 else if i = 1 then linesOther 9 else linesOther 3

/-- A single-row pending table. -/
def exDb1 : List Ticket := [⟨1, "t", "d", "Pending"⟩]

/-- A two-row pending table. -/
def exDb2 : List Ticket := [⟨1, "a", "d", "Pending"⟩, ⟨2, "b", "d", "Pending"⟩]

/-! ### Helper lemmas about the normalizer -/

theorem mem_insertLenDesc {y x : String} {l : List String} :
    y ∈ insertLenDesc x l ↔ y = x ∨ y ∈ l := by
  induction l with
  | nil => simp [insertLenDesc]
  | cons a as ih =>
    simp only [insertLenDesc]
    split
    · simp only [List.mem_cons, ih]
      tauto
    · simp only [List.mem_cons]

theorem mem_sortLenDesc {x : String} {l : List String} :
    x ∈ sortLenDesc l ↔ x ∈ l := by
  induction l with
  | nil => simp [sortLenDesc]
  | cons a as ih => simp [sortLenDesc, mem_insertLenDesc, ih]

theorem matchCategory_mem (cats : List String) (cleaned : List Char) :
    matchCategory cats cleaned ∈ cats ∨ matchCategory cats cleaned = "Other" := by
  unfold matchCategory
  by_cases h : cats.any (fun c => c.data == cleaned) = true
  · rw [if_pos h]
    rcases List.any_eq_true.mp h with ⟨c, hc, he⟩
    have hd : c.data = cleaned := eq_of_beq he
    left
    have hs : String.mk cleaned = c := by rw [← hd]
    rw [hs]
    exact hc
  · rw [if_neg h]
    cases hf : (sortLenDesc cats).find? (fun c => occursIn c.data cleaned) with
    | none => right; rfl
    | some c =>
      left
      exact mem_sortLenDesc.mp (List.mem_of_find?_eq_some hf)

theorem normalizeLine_mem_default (line : String) :
    normalizeLine defaultCategories line ∈ defaultCategories := by
  rcases matchCategory_mem defaultCategories (pyStrip (stripEnumPrefix line.data)) with h | h
  · exact h
  · show matchCategory defaultCategories (pyStrip (stripEnumPrefix line.data)) ∈ defaultCategories
    rw [h]
    decide

theorem normalizeChars_mem_default (line : List Char) :
    normalizeChars defaultCategories line ∈ defaultCategories :=
  normalizeLine_mem_default (String.mk line)

theorem default_categories_fixed :
    ∀ c ∈ defaultCategories, normalizeLine defaultCategories c = c := by decide

theorem default_no_marker :
    ∀ c ∈ defaultCategories, hasErrorMarker c = false := by decide

theorem target_eq_default : target_categories = defaultCategories := rfl

theorem marker_count_mismatch : hasErrorMarker ("Error: Count Mismatch") = true := by decide

theorem marker_not_configured :
    hasErrorMarker ("Error: OpenAI Not Configured") = true := by decide

/-! ### Helper lemmas about response processing and process_batch -/

theorem processResponse_mismatch {n : Nat} {raw : String} (cats : List String)
    (hmark : hasErrorMarker raw = false) (hM : (nonEmptyLines raw).length ≠ n) :
    processResponse n cats raw = List.replicate n ("Error: Count Mismatch") := by
  simp [processResponse, hmark, hM]

theorem processResponse_ok {n : Nat} {raw : String} (cats : List String)
    (hmark : hasErrorMarker raw = false) (hM : (nonEmptyLines raw).length = n) :
    processResponse n cats raw = (nonEmptyLines raw).map (normalizeChars cats) := by
  simp [processResponse, hmark, hM]

theorem categorize_true_nonempty (batch : List Ticket) (raw : String)
    (hne : batch ≠ []) :
    categorize_ticket_batch true (batch.map ticketText) (some target_categories) raw
      = processResponse batch.length target_categories raw := by
  simp [categorize_ticket_batch, pickCategories, List.isEmpty_iff, hne, target_categories]

theorem length_pos_of_ne_nil {α : Type} {l : List α} (h : l ≠ []) : l.length ≠ 0 := by
  simpa using h

theorem replicate_any_marker {n : Nat} {e : String} (hn : n ≠ 0)
    (he : hasErrorMarker e = true) :
    (List.replicate n e).any hasErrorMarker = true :=
  List.any_eq_true.mpr ⟨e, List.mem_replicate.mpr ⟨hn, rfl⟩, he⟩

theorem process_batch_guard_replicate {batch : List Ticket} {e : String}
    (cats : List String) (raw : String) (hne : batch ≠ [])
    (hcat : categorize_ticket_batch true (batch.map ticketText) (some cats) raw
      = List.replicate batch.length e)
    (he : hasErrorMarker e = true) :
    process_batch true batch cats raw = none := by
  have hb : batch.isEmpty = false := by simp [List.isEmpty_iff, hne]
  have hn : batch.length ≠ 0 := length_pos_of_ne_nil hne
  simp [process_batch, hb, hcat, replicate_any_marker hn he]

theorem process_batch_mismatch {batch : List Ticket} {raw : String}
    (hne : batch ≠ []) (hM : (nonEmptyLines raw).length ≠ batch.length) :
    process_batch true batch target_categories raw = none := by
  by_cases hmark : hasErrorMarker raw = true
  · refine process_batch_guard_replicate target_categories raw hne ?_ hmark
    simp [categorize_ticket_batch, List.isEmpty_iff, hne, processResponse, hmark,
      pickCategories]
  · have hmark' : hasErrorMarker raw = false := by
      cases h : hasErrorMarker raw
      · rfl
      · exact absurd h hmark
    refine process_batch_guard_replicate target_categories raw hne ?_ marker_count_mismatch
    rw [categorize_true_nonempty batch raw hne]
    exact processResponse_mismatch target_categories hmark' hM

theorem process_batch_clientFalse (batch : List Ticket) (cats : List String)
    (raw : String) :
    process_batch false batch cats raw = if batch.isEmpty then some [] else none := by
  by_cases hb : batch.isEmpty
  · simp [process_batch, hb]
  · have hne : batch ≠ [] := by simpa [List.isEmpty_iff] using hb
    have hn : batch.length ≠ 0 := length_pos_of_ne_nil hne
    have hmap : (batch.map ticketText).isEmpty = false := by
      simp [List.isEmpty_iff, hne]
    simp [process_batch, hb, categorize_ticket_batch, hmap,
      replicate_any_marker hn marker_not_configured]

theorem process_batch_some_sub {clientOk : Bool} {batch : List Ticket}
    {cats : List String} {raw : String} {rs : List (Nat × String)}
    (h : process_batch clientOk batch cats raw = some rs) :
    ∀ p ∈ rs, p.1 ∈ batch.map Ticket.id := by
  cases hb : batch.isEmpty with
  | true =>
    simp [process_batch, hb] at h
    subst h
    intro p hp
    cases hp
  | false =>
    cases h1 : (categorize_ticket_batch clientOk (batch.map ticketText) (some cats) raw).isEmpty
        || (categorize_ticket_batch clientOk (batch.map ticketText) (some cats) raw).length
          != batch.length with
    | true =>
      simp [process_batch, hb, h1] at h
    | false =>
      cases h2 : (categorize_ticket_batch clientOk (batch.map ticketText)
          (some cats) raw).any hasErrorMarker with
      | true =>
        simp [process_batch, hb, h1, h2] at h
      | false =>
        simp [process_batch, hb, h1, h2] at h
        subst h
        intro p hp
        obtain ⟨a, b⟩ := p
        exact (List.of_mem_zip hp).1

/-! ### Helper lemmas about batching and the main loops -/

theorem batchOf_subset {pending : List Ticket} {i : Nat} :
    batchOf pending i ⊆ pending := by
  intro t ht
  exact List.drop_subset _ _ (List.take_subset _ _ ht)

theorem get_pending_subset {db : List Ticket} : get_pending_tickets db ⊆ db :=
  (List.filter_sublist _).subset

theorem pending_ids_nodup {db : List Ticket} (h : (db.map Ticket.id).Nodup) :
    ((get_pending_tickets db).map Ticket.id).Nodup :=
  List.Nodup.sublist ((List.filter_sublist _).map Ticket.id) h

theorem batch_id_disjoint_lt {pending : List Ticket}
    (hn : (pending.map Ticket.id).Nodup) {i j : Nat} (hij : i < j) {t u : Ticket}
    (ht : t ∈ batchOf pending i) (hu : u ∈ batchOf pending j) : t.id ≠ u.id := by
  have h1 : ((pending.drop (i * BATCH_SIZE)).map Ticket.id).Nodup :=
    List.Nodup.sublist ((List.drop_sublist _ _).map Ticket.id) hn
  have hd : pending.drop (i * BATCH_SIZE)
      = (pending.drop (i * BATCH_SIZE)).take BATCH_SIZE
        ++ (pending.drop (i * BATCH_SIZE)).drop BATCH_SIZE :=
    (List.take_append_drop _ _).symm
  rw [hd, List.map_append] at h1
  have hdisj := (List.nodup_append.mp h1).2.2
  intro he
  apply hdisj (a := t.id)
  · exact List.mem_map_of_mem Ticket.id ht
  · have hdd : (pending.drop (i * BATCH_SIZE)).drop BATCH_SIZE
        = pending.drop (i * BATCH_SIZE + BATCH_SIZE) := List.drop_drop _ _ _
    have hu1 : u ∈ pending.drop (j * BATCH_SIZE) := List.take_subset _ _ hu
    have hsplit : pending.drop (j * BATCH_SIZE)
        = (pending.drop (i * BATCH_SIZE + BATCH_SIZE)).drop
            (j * BATCH_SIZE - (i * BATCH_SIZE + BATCH_SIZE)) := by
      rw [List.drop_drop]
      congr 1
      have : i * BATCH_SIZE + BATCH_SIZE ≤ j * BATCH_SIZE := by
        have hj : i + 1 ≤ j := hij
        calc i * BATCH_SIZE + BATCH_SIZE = (i + 1) * BATCH_SIZE := by ring
        _ ≤ j * BATCH_SIZE := Nat.mul_le_mul_right _ hj
      omega
    rw [hsplit] at hu1
    rw [hdd, he]
    exact List.mem_map_of_mem Ticket.id (List.drop_subset _ _ hu1)

theorem batch_id_disjoint {pending : List Ticket}
    (hn : (pending.map Ticket.id).Nodup) {i j : Nat} (hij : i ≠ j) {t u : Ticket}
    (ht : t ∈ batchOf pending i) (hu : u ∈ batchOf pending j) : t.id ≠ u.id := by
  rcases Nat.lt_or_ge i j with h | h
  · exact batch_id_disjoint_lt hn h ht hu
  · have hj : j < i := Nat.lt_of_le_of_ne h fun hh => hij hh.symm
    exact fun he => batch_id_disjoint_lt hn hj hu ht he.symm

theorem collectLoop_mem {clientOk : Bool} {cats : List String}
    {responses : Nat → String} {pending : List Ticket} :
    ∀ (idxs : List Nat) (st : ApiPhase) (p : Nat × String),
      p ∈ (collectLoop clientOk cats responses pending idxs st).allResults →
      p ∈ st.allResults ∨ ∃ j ∈ idxs, ∃ rs,
        process_batch clientOk (batchOf pending j) cats (responses j) = some rs
        ∧ p ∈ rs := by
  intro idxs
  induction idxs with
  | nil =>
    intro st p hp
    exact Or.inl hp
  | cons i rest ih =>
    intro st p hp
    cases hpb : process_batch clientOk (batchOf pending i) cats (responses i) with
    | none =>
      rw [collectLoop, hpb] at hp
      rcases ih _ p hp with h | ⟨j, hj, rs, hrs, hprs⟩
      · exact Or.inl h
      · exact Or.inr ⟨j, List.mem_cons_of_mem _ hj, rs, hrs, hprs⟩
    | some rs0 =>
      rw [collectLoop, hpb] at hp
      rcases ih _ p hp with h | ⟨j, hj, rs, hrs, hprs⟩
      · rcases List.mem_append.mp h with h1 | h2
        · exact Or.inl h1
        · exact Or.inr ⟨i, List.mem_cons_self _ _, rs0, hpb, h2⟩
      · exact Or.inr ⟨j, List.mem_cons_of_mem _ hj, rs, hrs, hprs⟩

theorem collectLoop_clientFalse {cats : List String} {responses : Nat → String}
    {pending : List Ticket} :
    ∀ (idxs : List Nat) (st : ApiPhase),
      (collectLoop false cats responses pending idxs st).allResults
        = st.allResults := by
  intro idxs
  induction idxs with
  | nil => intro st; rfl
  | cons i rest ih =>
    intro st
    rw [collectLoop, process_batch_clientFalse]
    cases hb : (batchOf pending i).isEmpty with
    | true =>
      rw [if_pos rfl]
      rw [ih]
      exact List.append_nil _
    | false =>
      rw [if_neg (by simp)]
      exact ih _

theorem update_fst_map_id (db : List Ticket) (tid : Nat) (c : String) :
    ((update_ticket_category db tid c).1).map Ticket.id = db.map Ticket.id := by
  unfold update_ticket_category
  rw [List.map_map]
  apply List.map_congr_left
  intro t _
  by_cases h : t.id = tid <;> simp [setCategory, h]

theorem hasId_update (db : List Ticket) (tid : Nat) (c : String) (x : Nat) :
    hasId (update_ticket_category db tid c).1 x = hasId db x := by
  unfold hasId
  rw [update_fst_map_id]

theorem update_snd (db : List Ticket) (tid : Nat) (c : String) :
    (update_ticket_category db tid c).2 = hasId db tid := by
  show db.any (fun t => t.id == tid) = hasId db tid
  induction db with
  | nil => rfl
  | cons t ts ih =>
    show (t.id == tid || ts.any fun u => u.id == tid)
      = (t.id == tid || hasId ts tid)
    rw [ih]

theorem applyUpdates_counts (cats : List String) :
    ∀ (rs : List (Nat × String)) (st : UpdatePhase),
      (applyUpdates cats rs st).err
          = st.err + rs.countP (fun p => !hasId st.db p.1)
        ∧ (applyUpdates cats rs st).success
          = st.success + rs.countP (fun p => hasId st.db p.1) := by
  intro rs
  induction rs with
  | nil => intro st; simp [applyUpdates]
  | cons p rest ih =>
    intro st
    obtain ⟨tid, cat⟩ := p
    rw [applyUpdates]
    rcases ih ⟨(update_ticket_category st.db tid (finalCategory cats cat)).1,
        if (update_ticket_category st.db tid (finalCategory cats cat)).2
          then st.success + 1 else st.success,
        if (update_ticket_category st.db tid (finalCategory cats cat)).2
          then st.err else st.err + 1,
        if cats.contains cat then st.mappedOther else st.mappedOther + 1⟩
      with ⟨ihe, ihs⟩
    simp only [hasId_update] at ihe ihs
    rw [ihe, ihs]
    simp only [update_snd, List.countP_cons]
    cases hh : hasId st.db tid with
    | true =>
      refine ⟨by simp [hh], ?_⟩
      simp [hh]
      omega
    | false =>
      refine ⟨?_, by simp [hh]⟩
      simp [hh]
      omega

theorem applyUpdates_mem (cats : List String) :
    ∀ (rs : List (Nat × String)) (st : UpdatePhase) (t : Ticket),
      t ∈ st.db → (∀ p ∈ rs, p.1 ≠ t.id) → t ∈ (applyUpdates cats rs st).db := by
  intro rs
  induction rs with
  | nil =>
    intro st t ht _
    exact ht
  | cons p rest ih =>
    intro st t ht h
    obtain ⟨tid, cat⟩ := p
    rw [applyUpdates]
    apply ih
    · have hne : t.id ≠ tid := fun hh =>
        h (tid, cat) (List.mem_cons_self _ _) hh.symm
      have hfix : (if t.id = tid then setCategory t (finalCategory cats cat) else t)
          = t := if_neg hne
      have hm : (if t.id = tid then setCategory t (finalCategory cats cat) else t)
          ∈ st.db.map
            (fun u => if u.id = tid then setCategory u (finalCategory cats cat) else u) :=
        List.mem_map_of_mem _ ht
      rw [hfix] at hm
      exact hm
    · exact fun q hq => h q (List.mem_cons_of_mem _ hq)

theorem applyUpdates_ids (cats : List String) :
    ∀ (rs : List (Nat × String)) (st : UpdatePhase),
      ((applyUpdates cats rs st).db).map Ticket.id = st.db.map Ticket.id := by
  intro rs
  induction rs with
  | nil => intro st; rfl
  | cons p rest ih =>
    intro st
    obtain ⟨tid, cat⟩ := p
    rw [applyUpdates, ih]
    exact update_fst_map_id _ _ _

theorem runMain_ids (engineOk clientOk : Bool) (db : List Ticket)
    (responses : Nat → String) :
    ((runMain engineOk clientOk db responses).2).map Ticket.id = db.map Ticket.id := by
  unfold runMain
  cases engineOk with
  | false => rfl
  | true =>
    by_cases hp : (get_pending_tickets db).isEmpty
    · simp [hp]
    · by_cases hr : (collectBatches clientOk target_categories responses
          (get_pending_tickets db)).allResults.isEmpty
      · simp [hp, hr]
      · simp [hp, hr, applyUpdates_ids]

theorem update_ticket_category_not_found {db : List Ticket} {tid : Nat} (c : String)
    (h : ∀ t ∈ db, t.id ≠ tid) :
    update_ticket_category db tid c = (db, false) := by
  have h1 : db.map (fun t => if t.id = tid then setCategory t c else t) = db := by
    have hc := List.map_congr_left
      (f := fun t : Ticket => if t.id = tid then setCategory t c else t)
      (g := fun t : Ticket => t) fun t ht => if_neg (h t ht)
    rw [hc, List.map_id']
  have h2 : db.any (fun t => t.id == tid) = false := by
    cases hA : db.any (fun t => t.id == tid) with
    | false => rfl
    | true =>
      obtain ⟨t, ht, hb⟩ := List.any_eq_true.mp hA
      exact absurd (eq_of_beq hb) (h t ht)
  show (db.map fun t => if t.id = tid then setCategory t c else t,
    db.any fun t => t.id == tid) = (db, false)
  rw [h1, h2]

/-! ### Helper lemmas about the retry model -/

theorem apiRetryLoop_counter_le :
    ∀ (fuel : Nat) (oracle : Nat → Option String) (k : Nat),
      (apiRetryLoop fuel oracle k).2 ≤ k + fuel := by
  intro fuel
  induction fuel with
  | zero =>
    intro oracle k
    simp [apiRetryLoop]
  | succ n ih =>
    intro oracle k
    simp only [apiRetryLoop]
    cases h : oracle k with
    | some raw => simp
    | none =>
      simp only []
      exact le_trans (ih oracle (k + 1)) (by omega)

theorem apiRetryLoop_allFail :
    ∀ (fuel : Nat) (oracle : Nat → Option String) (k : Nat),
      (∀ m, oracle m = none) →
      apiRetryLoop fuel oracle k = (Except.error (), k + fuel) := by
  intro fuel
  induction fuel with
  | zero => intro oracle k _; rfl
  | succ n ih =>
    intro oracle k ho
    simp only [apiRetryLoop, ho k]
    rw [ih oracle (k + 1) ho]
    have : k + 1 + n = k + (n + 1) := by omega
    rw [this]

theorem categorizeBody_clientFalse (texts : List String)
    (cats : Option (List String)) (oracle : Nat → Option String) (k : Nat) :
    categorizeBody false texts cats oracle k
      = (Except.ok (if texts.isEmpty then [] else
          List.replicate texts.length ("Error: OpenAI Not Configured")), k) := rfl

theorem categorizeBody_allFail (texts : List String) (cats : Option (List String))
    (oracle : Nat → Option String) (k : Nat) (hne : texts ≠ [])
    (ho : ∀ m, oracle m = none) :
    categorizeBody true texts cats oracle k = (Except.error (), k + 3) := by
  have hempty : texts.isEmpty = false := by simp [List.isEmpty_iff, hne]
  have hc : call_openai_api true oracle k = (Except.error (), k + 3) :=
    apiRetryLoop_allFail 3 oracle k ho
  simp [categorizeBody, hempty, hc]

theorem categorizeRetryLoop_allFail :
    ∀ (fuel : Nat) (texts : List String) (cats : Option (List String))
      (oracle : Nat → Option String) (k : Nat),
      texts ≠ [] → (∀ m, oracle m = none) →
      categorizeRetryLoop fuel true texts cats oracle k
        = (Except.error (), k + 3 * fuel) := by
  intro fuel
  induction fuel with
  | zero => intro texts cats oracle k _ _; rfl
  | succ n ih =>
    intro texts cats oracle k hne ho
    simp only [categorizeRetryLoop]
    rw [categorizeBody_allFail texts cats oracle k hne ho]
    show categorizeRetryLoop n true texts cats oracle (k + 3)
      = (Except.error (), k + 3 * (n + 1))
    rw [ih texts cats oracle (k + 3) hne ho]
    have : k + 3 + 3 * n = k + 3 * (n + 1) := by ring
    rw [this]

theorem categorize_with_retry_allFail (texts : List String)
    (cats : Option (List String)) (oracle : Nat → Option String) (k : Nat)
    (hne : texts ≠ []) (ho : ∀ m, oracle m = none) :
    categorize_with_retry true texts cats oracle k = (Except.error (), k + 9) := by
  show categorizeRetryLoop 3 true texts cats oracle k = _
  rw [categorizeRetryLoop_allFail 3 texts cats oracle k hne ho]

theorem categorize_with_retry_clientFalse (texts : List String)
    (cats : Option (List String)) (oracle : Nat → Option String) (k : Nat) :
    categorize_with_retry false texts cats oracle k
      = (Except.ok (if texts.isEmpty then [] else
          List.replicate texts.length ("Error: OpenAI Not Configured")), k) := rfl

theorem isEmpty_false_of_length {α : Type} {l : List α} (h : l.length ≠ 0) :
    l.isEmpty = false := by
  cases hE : l.isEmpty with
  | false => rfl
  | true =>
    rw [List.isEmpty_iff.mp hE] at h
    exact absurd rfl h

/-! ### Claim theorems -/

/-- C3: for every input line, the per-line normalization returns exactly
one string, and that string is a member of the closed label set (which
contains the sentinel), so no out-of-vocabulary value is ever produced. -/
theorem claim_normalizer_closed :
    ∀ line : String, normalizeLine defaultCategories line ∈ defaultCategories :=
  fun line => normalizeLine_mem_default line

/-- C8: the per-line normalizer is idempotent and total on the default
label set: renormalizing its own output yields the same output, and the
output is always a member of the closed label set. -/
theorem claim_normalizer_idempotent :
    ∀ line : String,
      normalizeLine defaultCategories (normalizeLine defaultCategories line)
          = normalizeLine defaultCategories line
        ∧ normalizeLine defaultCategories line ∈ defaultCategories := by
  intro line
  have hm := normalizeLine_mem_default line
  exact ⟨default_categories_fixed _ hm, hm⟩

/-- C7 counterexample: the line from the spec scenario, with its
lower-case label text, normalizes to the sentinel Other and not to
Phishing Attack, because the substring match is case sensitive. -/
theorem claim_phishing_cex :
    normalizeLine defaultCategories ("2. phishing attack extra text") = "Other"
    ∧ ("Other" : String) ≠ "Phishing Attack" := by decide

/-- C7 (amended): with the casing of the label itself, the numbering
prefix is stripped and the label is then found by the substring-match
fallback, yielding Phishing Attack. -/
theorem claim_phishing_amended :
    pyStrip (stripEnumPrefix ("2. Phishing Attack extra text").data)
        = ("Phishing Attack extra text").data
    ∧ normalizeLine defaultCategories ("2. Phishing Attack extra text")
        = "Phishing Attack" := by decide

/-- C9: calling categorize_ticket_batch with an empty list of texts
returns an empty list without issuing any model request (the attempt
counter is unchanged), whether or not the client is configured. -/
theorem claim_empty_batch :
    ∀ (clientOk : Bool) (cats : Option (List String))
      (oracle : Nat → Option String) (k : Nat),
      categorize_with_retry clientOk [] cats oracle k = (Except.ok [], k) := by
  intro clientOk cats oracle k
  cases clientOk with
  | false => rfl
  | true => rfl

/-- C4 counterexample: with a persistently failing call, the nested
retry decorators issue 9 underlying attempts, not 3, and the failure
escapes categorize_ticket_batch as an exception instead of being
demoted to a batch-level error result. -/
theorem claim_retry_cex :
    categorize_with_retry true ["t"] none (fun _ => none) 0 = (Except.error (), 9)
    ∧ (9 : Nat) ≠ 3 := ⟨rfl, by decide⟩

/-- C4 (amended): the inner API caller makes at most 3 attempts, but
the decorator on categorize_ticket_batch itself retries the whole body,
so a persistent transient failure consumes 9 attempts in total and then
propagates as an exception out of categorize_ticket_batch; when the
client is not configured, no attempt at all is made. -/
theorem claim_retry_amended :
    (∀ (oracle : Nat → Option String) (k : Nat),
      (apiRetryLoop 3 oracle k).2 ≤ k + 3)
    ∧ (∀ (texts : List String) (cats : Option (List String))
        (oracle : Nat → Option String) (k : Nat),
        texts ≠ [] → (∀ m, oracle m = none) →
        categorize_with_retry true texts cats oracle k = (Except.error (), k + 9))
    ∧ (∀ (texts : List String) (cats : Option (List String))
        (oracle : Nat → Option String) (k : Nat),
        (categorize_with_retry false texts cats oracle k).2 = k) :=
  ⟨fun oracle k => apiRetryLoop_counter_le 3 oracle k,
   fun texts cats oracle k hne ho =>
     categorize_with_retry_allFail texts cats oracle k hne ho,
   fun texts cats oracle k => by rw [categorize_with_retry_clientFalse]⟩

/-- C4 witness: the amended retry theorem applied at a concrete failing
oracle and a nonzero start counter. -/
theorem claim_retry_witness :
    (["x"] : List String) ≠ []
    ∧ (∀ m : Nat, (fun _ : Nat => (none : Option String)) m = none)
    ∧ categorize_with_retry true ["x"] none (fun _ => none) 2
        = (Except.error (), 2 + 9) :=
  ⟨by decide, fun m => rfl,
   claim_retry_amended.2.1 ["x"] none (fun _ => none) 2 (by decide) (fun m => rfl)⟩

/-- C2 counterexample: a raw response that parses to exactly as many
non-empty lines as the batch has tickets but contains the error marker
is replicated as an error, so no positional mapping is produced. -/
theorem claim_positional_cex :
    (nonEmptyLines ("Error: x")).length = exDb1.length
    ∧ process_batch true exDb1 target_categories ("Error: x") = none
    ∧ process_batch true exDb1 target_categories ("Error: x")
        ≠ some ((exDb1.map Ticket.id).zip
            ((nonEmptyLines ("Error: x")).map (normalizeChars target_categories))) := by
  decide

/-- C2 (amended): for every nonempty batch whose raw response does not
contain the error marker and parses to exactly as many non-empty lines
as the batch has tickets, process_batch pairs the i-th ticket id with
the category normalized from the i-th line, with no transposition. -/
theorem claim_positional (batch : List Ticket) (raw : String)
    (hne : batch ≠ []) (hmark : hasErrorMarker raw = false)
    (hcount : (nonEmptyLines raw).length = batch.length) :
    process_batch true batch target_categories raw
      = some ((batch.map Ticket.id).zip
          ((nonEmptyLines raw).map (normalizeChars target_categories))) := by
  have hb : batch.isEmpty = false := by simp [List.isEmpty_iff, hne]
  have hpred : categorize_ticket_batch true (batch.map ticketText)
      (some target_categories) raw
      = (nonEmptyLines raw).map (normalizeChars target_categories) := by
    rw [categorize_true_nonempty batch raw hne]
    exact processResponse_ok target_categories hmark hcount
  have hlen : ((nonEmptyLines raw).map (normalizeChars target_categories)).length
      = batch.length := by
    rw [List.length_map]
    exact hcount
  have hnonempty : ((nonEmptyLines raw).map
      (normalizeChars target_categories)).isEmpty = false := by
    apply isEmpty_false_of_length
    rw [hlen]
    exact length_pos_of_ne_nil hne
  have hanyf : ((nonEmptyLines raw).map
      (normalizeChars target_categories)).any hasErrorMarker = false := by
    cases hA : ((nonEmptyLines raw).map
        (normalizeChars target_categories)).any hasErrorMarker with
    | false => rfl
    | true =>
      obtain ⟨x, hx, hpx⟩ := List.any_eq_true.mp hA
      obtain ⟨l, _, hxe⟩ := List.mem_map.mp hx
      have hmem : normalizeChars defaultCategories l ∈ defaultCategories :=
        normalizeChars_mem_default l
      have hno := default_no_marker _ hmem
      rw [target_eq_default] at hxe
      rw [hxe] at hno
      rw [hno] at hpx
      cases hpx
  simp [process_batch, hb, hpred, hnonempty, hlen, hanyf]

/-- C2 witness: the amended positional theorem applied to a concrete
two-ticket batch and a two-line response. -/
theorem claim_positional_witness :
    hasErrorMarker ("Network Security\nnonsense here") = false
    ∧ (nonEmptyLines ("Network Security\nnonsense here")).length = exDb2.length
    ∧ process_batch true exDb2 target_categories ("Network Security\nnonsense here")
        = some [(1, "Network Security"), (2, "Other")] := by
  refine ⟨by decide, by decide, ?_⟩
  rw [claim_positional exDb2 ("Network Security\nnonsense here")
    (by decide) (by decide) (by decide)]
  decide

/-- C5 counterexample: with the store connected but the model client
unconfigured, the run is not aborted immediately: it iterates both
batches of an 11-ticket backlog (2 failed batches are counted), although
nothing is written. -/
theorem claim_config_cex :
    runMain true false elevenDb (fun _ => "")
        = (RunOutcome.noResults 11 0 2, elevenDb)
    ∧ (2 : Nat) ≠ 0 := by decide

/-- C5 (amended): a missing store connection is fatal, aborts the run
at once and leaves the table untouched; a missing model credential is
not fatal: the run still iterates its batches, but every batch fails
without issuing any model attempt, no summary of completed updates is
ever produced, and the table is left untouched. -/
theorem claim_config_amended :
    (∀ (clientOk : Bool) (db : List Ticket) (responses : Nat → String),
        runMain false clientOk db responses = (RunOutcome.noEngine, db))
    ∧ (∀ (db : List Ticket) (responses : Nat → String),
        (runMain true false db responses).2 = db
        ∧ ∀ s : RunSummary,
            (runMain true false db responses).1 ≠ RunOutcome.completed s)
    ∧ (∀ (texts : List String) (cats : Option (List String))
        (oracle : Nat → Option String) (k : Nat),
        (categorize_with_retry false texts cats oracle k).2 = k) := by
  refine ⟨?_, ?_, ?_⟩
  · intro clientOk db responses
    rfl
  · intro db responses
    have hall : (collectBatches false target_categories responses
        (get_pending_tickets db)).allResults = [] :=
      collectLoop_clientFalse _ _
    by_cases hp : (get_pending_tickets db).isEmpty
    · exact ⟨by simp [runMain, hp], fun s => by simp [runMain, hp]⟩
    · exact ⟨by simp [runMain, hp, hall], fun s => by simp [runMain, hp, hall]⟩
  · intro texts cats oracle k
    rw [categorize_with_retry_clientFalse]

/-- C10: an UPDATE that matches no row yields False and leaves the
table unchanged, and in the update loop of main every such False is
counted as a failed database update while a matched update is counted
as a success; in a completed run the reported dbError count is exactly
the number of result pairs whose id matches no row. -/
theorem claim_update_failure :
    (∀ (db : List Ticket) (tid : Nat) (c : String),
        (∀ t ∈ db, t.id ≠ tid) → update_ticket_category db tid c = (db, false))
    ∧ (∀ (cats : List String) (rs : List (Nat × String)) (st : UpdatePhase),
        (applyUpdates cats rs st).err
            = st.err + rs.countP (fun p => !hasId st.db p.1)
          ∧ (applyUpdates cats rs st).success
            = st.success + rs.countP (fun p => hasId st.db p.1))
    ∧ (∀ (db : List Ticket) (responses : Nat → String) (s : RunSummary),
        (runMain true true db responses).1 = RunOutcome.completed s →
        s.dbError = (collectBatches true target_categories responses
            (get_pending_tickets db)).allResults.countP
              (fun p => !hasId db p.1)) := by
  refine ⟨?_, ?_, ?_⟩
  · intro db tid c h
    exact update_ticket_category_not_found c h
  · intro cats rs st
    exact applyUpdates_counts cats rs st
  · intro db responses s hcomp
    obtain ⟨s1, s2, s3, s4, s5, s6⟩ := s
    by_cases hp : (get_pending_tickets db).isEmpty
    · simp [runMain, hp] at hcomp
    · by_cases hr : (collectBatches true target_categories responses
          (get_pending_tickets db)).allResults.isEmpty
      · simp [runMain, hp, hr] at hcomp
      · simp [runMain, hp, hr, RunOutcome.completed.injEq,
          RunSummary.mk.injEq] at hcomp
        obtain ⟨h1, h2, h3, h4, h5, h6⟩ := hcomp
        show s5 = _
        rw [← h5]
        have hcounts := (applyUpdates_counts target_categories
          ((collectBatches true target_categories responses
            (get_pending_tickets db)).allResults) ⟨db, 0, 0, 0⟩).1
        rw [hcounts]
        simp

/-- C10 witness: the update theorem applied to a missing ticket id and
to a concrete completed one-ticket run. -/
theorem claim_update_failure_witness :
    (∀ t ∈ exDb1, t.id ≠ 2)
    ∧ update_ticket_category exDb1 2 ("Other") = (exDb1, false)
    ∧ (runMain true true exDb1 (fun _ => "Other")).1
        = RunOutcome.completed ⟨1, 1, 0, 1, 0, 0⟩
    ∧ (1 : Nat) - 1 = (collectBatches true target_categories (fun _ => "Other")
        (get_pending_tickets exDb1)).allResults.countP
          (fun p => !hasId exDb1 p.1) := by
  refine ⟨by decide, ?_, by decide, ?_⟩
  · exact claim_update_failure.1 exDb1 2 ("Other") (by decide)
  · have h := claim_update_failure.2.2 exDb1 (fun _ => "Other")
      ⟨1, 1, 0, 1, 0, 0⟩ (by decide)
    simpa using h


/-- C1 counterexample: a raw response that itself contains the error
marker is replicated verbatim even when its non-empty-line count is
wrong, so the claimed count-mismatch error value is not returned for
every position. -/
theorem claim_atomic_cex :
    (nonEmptyLines ("Error: a\nb")).length = 2
    ∧ exDb1.length = 1
    ∧ categorize_ticket_batch true (exDb1.map ticketText) (some target_categories)
        ("Error: a\nb") = ["Error: a\nb"]
    ∧ (["Error: a\nb"] : List String)
        ≠ List.replicate 1 ("Error: Count Mismatch") := by decide

/-- C1 (amended): when a batch response parses to the wrong number of
non-empty lines, the batch fails atomically: if the raw text does not
itself contain the error marker, categorize_ticket_batch returns the
count-mismatch error at every position; in every case process_batch
returns no per-ticket results, and every ticket of the batch keeps its
original row (category included) in the final table of the run. -/
theorem claim_count_mismatch_atomic (db : List Ticket) (responses : Nat → String)
    (i : Nat) (hnodup : (db.map Ticket.id).Nodup)
    (hne : batchOf (get_pending_tickets db) i ≠ [])
    (hM : (nonEmptyLines (responses i)).length
        ≠ (batchOf (get_pending_tickets db) i).length) :
    (hasErrorMarker (responses i) = false →
      categorize_ticket_batch true
          ((batchOf (get_pending_tickets db) i).map ticketText)
          (some target_categories) (responses i)
        = List.replicate (batchOf (get_pending_tickets db) i).length
            ("Error: Count Mismatch"))
    ∧ process_batch true (batchOf (get_pending_tickets db) i) target_categories
        (responses i) = none
    ∧ ((runMain true true db responses).2).map Ticket.id = db.map Ticket.id
    ∧ ∀ t ∈ batchOf (get_pending_tickets db) i,
        t ∈ (runMain true true db responses).2 := by
  have hpb : process_batch true (batchOf (get_pending_tickets db) i)
      target_categories (responses i) = none :=
    process_batch_mismatch hne hM
  refine ⟨?_, hpb, runMain_ids true true db responses, ?_⟩
  · intro hmark
    rw [categorize_true_nonempty _ _ hne]
    exact processResponse_mismatch target_categories hmark hM
  · intro t ht
    have htp : t ∈ get_pending_tickets db := batchOf_subset ht
    have htdb : t ∈ db := get_pending_subset htp
    have hpnd : ((get_pending_tickets db).map Ticket.id).Nodup :=
      pending_ids_nodup hnodup
    have hpe : (get_pending_tickets db).isEmpty = false := by
      cases hpE : (get_pending_tickets db).isEmpty with
      | false => rfl
      | true =>
        rw [List.isEmpty_iff.mp hpE] at htp
        cases htp
    have hkeys : ∀ p ∈ (collectBatches true target_categories responses
        (get_pending_tickets db)).allResults, p.1 ≠ t.id := by
      intro p hp
      rcases collectLoop_mem _ _ p hp with h0 | ⟨j, _, rs, hrs, hprs⟩
      · cases h0
      · by_cases hji : j = i
        · rw [hji, hpb] at hrs
          cases hrs
        · have hid := process_batch_some_sub hrs p hprs
          rcases List.mem_map.mp hid with ⟨u, hu, hup⟩
          have hdisj : t.id ≠ u.id :=
            batch_id_disjoint hpnd (fun hh => hji hh.symm) ht hu
          rw [← hup]
          exact Ne.symm hdisj
    by_cases hr : (collectBatches true target_categories responses
        (get_pending_tickets db)).allResults.isEmpty
    · have hfin : (runMain true true db responses).2 = db := by
        simp [runMain, hpe, hr]
      rw [hfin]
      exact htdb
    · have hfin : (runMain true true db responses).2
          = (applyUpdates target_categories
              (collectBatches true target_categories responses
                (get_pending_tickets db)).allResults ⟨db, 0, 0, 0⟩).db := by
        simp [runMain, hpe, hr]
      rw [hfin]
      exact applyUpdates_mem target_categories _ ⟨db, 0, 0, 0⟩ t htdb
        (fun p hp => hkeys p hp)

/-- C1 witness: the amended atomicity theorem applied to a one-ticket
backlog whose response has two non-empty lines. -/
theorem claim_count_mismatch_atomic_witness :
    (exDb1.map Ticket.id).Nodup
    ∧ batchOf (get_pending_tickets exDb1) 0 ≠ []
    ∧ (nonEmptyLines ((fun _ : Nat => "A\nB") 0)).length
        ≠ (batchOf (get_pending_tickets exDb1) 0).length
    ∧ process_batch true (batchOf (get_pending_tickets exDb1) 0) target_categories
        ((fun _ : Nat => "A\nB") 0) = none := by
  refine ⟨by decide, by decide, by decide, ?_⟩
  exact (claim_count_mismatch_atomic exDb1 (fun _ => "A\nB") 0
    (by decide) (by decide) (by decide)).2.1


/-- C6 counterexample: the 23-ticket scenario partitions into batches
of sizes 10, 10 and 3, but when batch 2 answers with 9 lines the run
reports 13 tickets categorized and 10 still pending, not 20 and 3. -/
theorem claim_scenario_cex :
    (List.range (numBatches (get_pending_tickets scenarioDb).length)).map
        (fun i => (batchOf (get_pending_tickets scenarioDb) i).length) = [10, 10, 3]
    ∧ (runMain true true scenarioDb scenarioResponses).1
        = RunOutcome.completed ⟨23, 13, 1, 13, 0, 0⟩
    ∧ (get_pending_tickets
        (runMain true true scenarioDb scenarioResponses).2).length = 10
    ∧ (13 : Nat) ≠ 20 ∧ (10 : Nat) ≠ 3 := by decide

/-- C6 (amended): in the 23-ticket scenario with batch 2 answering 9
lines, the run partitions the backlog into batches of 10, 10 and 3,
reports 13 tickets categorized, 1 failed batch and 13 database updates,
and exactly the 10 tickets of the failed second batch (ids 11 to 20)
remain pending, the other batches being unaffected. -/
theorem claim_scenario_amended :
    (runMain true true scenarioDb scenarioResponses).1
        = RunOutcome.completed ⟨23, 13, 1, 13, 0, 0⟩
    ∧ ((runMain true true scenarioDb scenarioResponses).2.filter
        (fun t => t.category == "Pending")).map Ticket.id
        = [11, 12, 13, 14, 15, 16, 17, 18, 19, 20]
    ∧ ((runMain true true scenarioDb scenarioResponses).2.filter
        (fun t => t.category == "Other")).length = 13 := by decide

end Riskalyze
